import Mathlib

/-!
Shallow embedding of the alert-evaluation core of `alert_bot.py`
(a Telegram buy-the-dip alert bot).

Python floats are modelled as `ℚ`; unix timestamps (`now_ts`, `last_sent_ts`,
`week_monday_ts`, …) as `ℤ`.  The price provider (`fetch_snapshot`, which
wraps yfinance) and Telegram delivery (`bot.send_message`) are external
collaborators and enter the model as function parameters.  User records are
Python dicts whose fields are installed by `get_user` / `add`; they are
modelled as structures whose fields carry the dict defaults.
-/

/-- Price snapshot, the result of `fetch_snapshot` (src lines 140-148):
current price, trailing 60d high, and the drawdown percentage
`drop_pct = (recent_high - price) / recent_high * 100`.  The optional
indicator fields (sma50, sma200, rsi14, vol_ratio) only feed the cosmetic
premium "score" text of the alert message and are omitted. -/
structure Snapshot where
  price : ℚ
  recent_high : ℚ
  drop_pct : ℚ
deriving Repr, DecidableEq

/-- One whitespace-separated token of the `/dca` configuration string, after
`safe_float` has been applied to the two halves of `a:b` (src lines 229-234):
either the token had no colon, or it split into two optional floats. -/
inductive DcaToken where
  | noColon : DcaToken
  | pair (drop : Option ℚ) (amt : Option ℚ) : DcaToken
deriving Repr, DecidableEq

/-- Stable insertion of a tier into a list sorted ascending by drawdown key;
an element with an equal key stays before the inserted one, matching the
stability of Python's `list.sort(key=lambda x: x[0])`. -/
def insertTier (t : ℚ × ℚ) : List (ℚ × ℚ) → List (ℚ × ℚ)
  | [] => [t]
  | u :: rest => if u.1 ≤ t.1 then u :: insertTier t rest else t :: u :: rest

/-- Stable ascending sort by drawdown key, modelling
`tiers.sort(key=lambda x: x[0])` (src line 240): a stable sort of the
filtered tier list, ascending by first component. -/
def sortTiers (l : List (ℚ × ℚ)) : List (ℚ × ℚ) :=
  l.foldl (fun acc t => insertTier t acc) []

/-- `parse_dca` (src lines 225-241): drop tokens without a colon, drop tokens
whose halves did not parse as floats, drop non-positive drawdowns or amounts,
then sort ascending by drawdown. -/
def parse_dca (tokens : List DcaToken) : List (ℚ × ℚ) :=
  sortTiers (tokens.filterMap fun tok =>
    match tok with
    | DcaToken.noColon => none
    | DcaToken.pair d a =>
      match d, a with
      | some d, some a => if d ≤ 0 ∨ a ≤ 0 then none else some (d, a)
      | _, _ => none)

/-- `dca_suggestion` (src lines 244-249): walk the tiers in order, remembering
the amount of every tier whose drawdown the current drop reaches; the final
value is the amount of the last qualifying tier (none if no tier qualifies). -/
def dca_suggestion (drop_pct : ℚ) (tiers : List (ℚ × ℚ)) : Option ℚ :=
  tiers.foldl (fun amt t => if drop_pct ≥ t.1 then some t.2 else amt) none

/-- Per-ticker alert configuration dict (`u["alerts"][ticker]`), with the
defaults installed by `add` (src lines 373-381): `entry = None`, `tp = 0`,
`sl = 0`, `dca = ""`, `last_sent_ts = 0`, `last_dca_sent_week = 0`, and
`buy_drop_pct` read with default 0 in `check_job`.  The `dca` string is
modelled by its token list (empty list = empty string). -/
structure TickerCfg where
  buy_drop_pct : ℚ
  entry : Option ℚ
  tp : ℚ
  sl : ℚ
  dca : List DcaToken
  last_sent_ts : ℤ
  last_dca_sent_week : ℤ
deriving Repr, DecidableEq

/-- The `dca_note` part of an alert message (src lines 838-856): empty, a
suggested capped amount (with the remaining and total dip budget shown), or
the budget-exhausted warning (showing spent and total dip budget). -/
inductive DcaNote where
  | empty : DcaNote
  | suggest (amt remaining budget : ℚ) : DcaNote
  | exhausted (spent budget : ℚ) : DcaNote
deriving Repr, DecidableEq

/-- The content of one alert message sent by `check_job` (src lines 816-864):
the code builds exactly one message shape, the BUY drawdown alert, carrying
the drawdown, price and 60d high from the snapshot plus the DCA note.
(The premium "score" lines are cosmetic and omitted.) -/
structure BuyAlert where
  drop_pct : ℚ
  price : ℚ
  recent_high : ℚ
  note : DcaNote
deriving Repr, DecidableEq

/-- Result of evaluating one ticker inside `check_job`'s inner loop:
the (possibly updated) config, the alert message to send (if any), and
whether a snapshot fetch was issued for this ticker. -/
structure TickerStep where
  cfg : TickerCfg
  alert : Option BuyAlert
  fetched : Bool
deriving Repr, DecidableEq

/-- The `dca_note` block of `check_job` (src lines 837-856), run when a BUY
alert fires: parse the stored tiers (`tiers = parse_dca(dca_str) if dca_str
else []`), look up the suggestion (`if tiers`), and build the note: if a
tier qualifies, dip budget remains and none was sent this week, suggest
`min(suggested, remaining_dips)` and record `last_dca_sent_week`; else if no
dip budget remains, emit the exhausted warning. -/
def dcaStep (remaining_dips dip_spent dip_budget : ℚ) (current_week : ℤ)
    (drop_pct : ℚ) (cfg : TickerCfg) : DcaNote × TickerCfg :=
  let tiers := if cfg.dca.isEmpty then [] else parse_dca cfg.dca
  let suggested := if tiers.isEmpty then none else dca_suggestion drop_pct tiers
  let last_week_sent := cfg.last_dca_sent_week
  match suggested with
  | some a =>
    if 0 < remaining_dips ∧ current_week ≠ last_week_sent then
      let buy_amt := min a remaining_dips
      if 0 < buy_amt then
        (DcaNote.suggest buy_amt remaining_dips dip_budget,
          { cfg with last_dca_sent_week := current_week })
      else (DcaNote.empty, cfg)
    else if remaining_dips ≤ 0 then
      (DcaNote.exhausted dip_spent dip_budget, cfg)
    else (DcaNote.empty, cfg)
  | none =>
    if remaining_dips ≤ 0 then
      (DcaNote.exhausted dip_spent dip_budget, cfg)
    else (DcaNote.empty, cfg)

/-- One iteration of `check_job`'s per-ticker loop (src lines 803-859):
skip while the per-ticker cooldown is active; otherwise fetch a snapshot
(skip if unavailable); if `buy_drop_pct > 0` and the drawdown reaches it,
build the alert: compute the DCA note (`dcaStep`), then set
`last_sent_ts = now`. -/
def checkTicker (now cooldown_sec : ℤ) (remaining_dips dip_spent dip_budget : ℚ)
    (current_week : ℤ) (fetch : String → Option Snapshot) (ticker : String)
    (cfg : TickerCfg) : TickerStep :=
  let buy_drop := cfg.buy_drop_pct
  let last_sent := cfg.last_sent_ts
  if now - last_sent < cooldown_sec then ⟨cfg, none, false⟩
  else
    match fetch ticker with
    | none => ⟨cfg, none, true⟩
    | some s =>
      if 0 < buy_drop ∧ buy_drop ≤ s.drop_pct then
        let step := dcaStep remaining_dips dip_spent dip_budget current_week s.drop_pct cfg
        let cfg2 := { step.2 with last_sent_ts := now }
        ⟨cfg2, some ⟨s.drop_pct, s.price, s.recent_high, step.1⟩, true⟩
      else ⟨cfg, none, true⟩

/-- The `week_state` dict: canonical Monday timestamp of the current
accounting week, and the two spent counters. -/
structure WeekState where
  week_monday_ts : ℤ
  dip_spent : ℚ
  weekly_spent : ℚ
deriving Repr, DecidableEq

/-- The `premium` dict (`{"enabled": ..., "until_ts": ...}`). -/
structure Premium where
  enabled : Bool
  until_ts : ℤ
deriving Repr, DecidableEq

/-- The `trial` dict (`{"start_ts": ..., "days": ...}`). -/
structure Trial where
  start_ts : ℤ
  days : ℤ
deriving Repr, DecidableEq

/-- One user record, with the defaults installed by `get_user`
(src lines 44-55).  The `alerts` dict is modelled as an association list in
insertion order (Python dicts preserve insertion order). -/
structure UserState where
  alerts : List (String × TickerCfg)
  cooldown_min : ℤ
  weekly_budget : ℚ
  dip_budget : ℚ
  weekly_plan : List (String × ℚ)
  week_state : WeekState
  trial : Trial
  premium : Premium
deriving Repr, DecidableEq

/-- `monday_of_week` (src lines 39-41) on unix timestamps: midnight UTC of
the Monday of the week containing `ts`.  Day 0 (1970-01-01) was a Thursday,
so the Python `weekday()` (Monday = 0) of epoch day `d` is `(d + 3) % 7`.
Faithful for the nonnegative timestamps the bot works with. -/
def monday_of_week (ts : ℤ) : ℤ :=
  (ts / 86400 - (ts / 86400 + 3) % 7) * 86400

/-- `ensure_week_reset` (src lines 102-113): when the stored week Monday
differs from the current week's Monday, reset both spent counters to zero
and store the new Monday; otherwise leave the record unchanged (the two
`setdefault` calls are no-ops in the typed model). -/
def ensure_week_reset (now : ℤ) (u : UserState) : UserState :=
  let current_monday := monday_of_week now
  if u.week_state.week_monday_ts ≠ current_monday then
    { u with week_state := ⟨current_monday, 0, 0⟩ }
  else u

/-- `premium_active` (src lines 69-79): enabled premium that has not expired,
else an unexpired trial (a trial with `start_ts <= 0` never started). -/
def premium_active (now : ℤ) (u : UserState) : Bool :=
  if u.premium.enabled ∧ now < u.premium.until_ts then true
  else if u.trial.start_ts ≤ 0 then false
  else decide (now < u.trial.start_ts + u.trial.days * 86400)

/-- `ensure_trial` (src lines 82-87): start the trial clock on first use. -/
def ensure_trial (now : ℤ) (u : UserState) : UserState :=
  if u.trial.start_ts ≤ 0 then { u with trial := ⟨now, u.trial.days⟩ } else u

/-- The FREE-plan rejection text of `free_limits_ok` (src line 95). -/
def freeLimitMsg : String :=
  "⚠️ En FREE solo puedes tener 2 tickers. Para más: /premium"

/-- `free_limits_ok` (src lines 90-96): premium/trial users always pass;
FREE users are rejected once they already have 2 (or more) tickers. -/
def free_limits_ok (now : ℤ) (u : UserState) : Bool × String :=
  if premium_active now u then (true, "")
  else if 2 ≤ u.alerts.length then (false, freeLimitMsg)
  else (true, "")

/-- Fresh per-ticker config dict created by `add` via `setdefault`
(src lines 373-379), before `buy_drop_pct` is written. -/
def defaultCfg : TickerCfg :=
  { buy_drop_pct := 0, entry := none, tp := 0, sl := 0, dca := []
    last_sent_ts := 0, last_dca_sent_week := 0 }

/-- `u["alerts"].setdefault(ticker, {...}); cfg["buy_drop_pct"] = pct`:
update the existing entry's threshold in place, or append a fresh entry
(Python dicts keep insertion order; a new key goes last). -/
def upsertAlert (alerts : List (String × TickerCfg)) (ticker : String) (pct : ℚ) :
    List (String × TickerCfg) :=
  if (alerts.lookup ticker).isSome then
    alerts.map fun p =>
      if p.1 = ticker then (p.1, { p.2 with buy_drop_pct := pct }) else p
  else
    alerts ++ [(ticker, { defaultCfg with buy_drop_pct := pct })]

/-- Reply sent by the `/add` command handler. -/
inductive AddReply where
  | invalidPct : AddReply
  | limit (msg : String) : AddReply
  | created (ticker : String) (pct : ℚ) : AddReply
deriving Repr, DecidableEq

/-- The `/add` command (src lines 357-383), after front-end tokenisation
(`ticker` already uppercased/trimmed, `pct` the `safe_float` of the second
argument).  Returns the user record as persisted plus the reply: on a
rejected request the handler returns before `save_data`, so the stored
record keeps its prior value. -/
def add_cmd (now : ℤ) (ticker : String) (pct : Option ℚ) (u : UserState) :
    UserState × AddReply :=
  match pct with
  | none => (u, AddReply.invalidPct)
  | some p =>
    if p ≤ 0 ∨ 80 < p then (u, AddReply.invalidPct)
    else
      let u1 := ensure_trial now u
      let ok := free_limits_ok now u1
      if ok.1 then
        ({ u1 with alerts := upsertAlert u1.alerts ticker p }, AddReply.created ticker p)
      else (u, AddReply.limit ok.2)

/-- Result of `check_job`'s per-user ticker loop: the updated alerts dict,
the tickers fetched (in order), the messages attempted (chat id, ticker),
and whether the loop ran to completion (`ok = false`: a `send_message`
raised, aborting the rest of the loop). -/
structure TickersResult where
  alerts : List (String × TickerCfg)
  fetches : List String
  sends : List (String × String)
  ok : Bool
deriving Repr, DecidableEq

/-- The inner `for ticker, cfg in list(alerts.items())` loop of `check_job`
(src lines 803-864).  `send` models `app.bot.send_message` (success, or
`false` = exception): the config mutation precedes the send, and an
exception propagates, leaving the remaining tickers unexamined. -/
def runTickers (now cooldown_sec : ℤ) (remaining_dips dip_spent dip_budget : ℚ)
    (current_week : ℤ) (fetch : String → Option Snapshot)
    (send : String → String → Bool) (chat : String) :
    List (String × TickerCfg) → TickersResult
  | [] => ⟨[], [], [], true⟩
  | (tkr, cfg) :: rest =>
    let step := checkTicker now cooldown_sec remaining_dips dip_spent dip_budget
      current_week fetch tkr cfg
    let fet := if step.fetched then [tkr] else []
    match step.alert with
    | none =>
      let r := runTickers now cooldown_sec remaining_dips dip_spent dip_budget
        current_week fetch send chat rest
      ⟨(tkr, step.cfg) :: r.alerts, fet ++ r.fetches, r.sends, r.ok⟩
    | some _ =>
      if send chat tkr then
        let r := runTickers now cooldown_sec remaining_dips dip_spent dip_budget
          current_week fetch send chat rest
        ⟨(tkr, step.cfg) :: r.alerts, fet ++ r.fetches, (chat, tkr) :: r.sends, r.ok⟩
      else ⟨(tkr, step.cfg) :: rest, fet, [(chat, tkr)], false⟩

/-- Result of evaluating one user in `check_job`. -/
structure UserResult where
  user : UserState
  fetches : List String
  sends : List (String × String)
  ok : Bool
deriving Repr, DecidableEq

/-- One iteration of `check_job`'s outer loop (src lines 790-864):
week rollover first; users with no alerts are skipped; otherwise the
per-user parameters (`cooldown_sec = cooldown_min * 60`, the dip budget and
`remaining_dips = max(0, dip_budget - dip_spent)`, computed once per user)
feed the ticker loop. -/
def checkUser (now : ℤ) (fetch : String → Option Snapshot)
    (send : String → String → Bool) (chat : String) (u : UserState) : UserResult :=
  let u1 := ensure_week_reset now u
  if u1.alerts.isEmpty then ⟨u1, [], [], true⟩
  else
    let cooldown_sec := u1.cooldown_min * 60
    let remaining_dips := max 0 (u1.dip_budget - u1.week_state.dip_spent)
    let r := runTickers now cooldown_sec remaining_dips u1.week_state.dip_spent
      u1.dip_budget u1.week_state.week_monday_ts fetch send chat u1.alerts
    ⟨{ u1 with alerts := r.alerts }, r.fetches, r.sends, r.ok⟩

/-- Accumulated outcome of `check_job`'s loop over all users. -/
structure UsersResult where
  users : List (String × UserState)
  fetches : List String
  sends : List (String × String)
  ok : Bool
deriving Repr, DecidableEq

/-- `check_job`'s loop over `data["users"]` (src line 790): an exception in
one user's loop aborts the whole job (no surrounding handler). -/
def runUsers (now : ℤ) (fetch : String → Option Snapshot)
    (send : String → String → Bool) :
    List (String × UserState) → UsersResult
  | [] => ⟨[], [], [], true⟩
  | (chat, u) :: rest =>
    let r := checkUser now fetch send chat u
    if r.ok then
      let rr := runUsers now fetch send rest
      ⟨(chat, r.user) :: rr.users, r.fetches ++ rr.fetches,
        r.sends ++ rr.sends, rr.ok⟩
    else ⟨(chat, r.user) :: rest, r.fetches, r.sends, false⟩

/-- The persisted outcome of one `check_job` cycle. -/
structure JobResult where
  data : Option (List (String × UserState))
  fetches : List String
  sends : List (String × String)
deriving Repr, DecidableEq

/-- `check_job` (src lines 786-866): evaluate every user, then `save_data`.
`data = none` models an uncaught `send_message` exception: `save_data` at
the end of the job never runs, so the persisted file keeps its prior
contents and every in-memory mutation of the cycle is lost. -/
def check_job (now : ℤ) (fetch : String → Option Snapshot)
    (send : String → String → Bool) (data : List (String × UserState)) : JobResult :=
  let r := runUsers now fetch send data
  ⟨if r.ok then some r.users else none, r.fetches, r.sends⟩

/-! ### Branch lemmas for `checkTicker` -/

/-- Active cooldown skips the ticker entirely: nothing is fetched, nothing
fires, the config is untouched. -/
theorem checkTicker_cooldown (now cooldown_sec : ℤ)
    (remaining_dips dip_spent dip_budget : ℚ) (current_week : ℤ)
    (fetch : String → Option Snapshot) (ticker : String) (cfg : TickerCfg)
    (hcd : now - cfg.last_sent_ts < cooldown_sec) :
    checkTicker now cooldown_sec remaining_dips dip_spent dip_budget current_week
      fetch ticker cfg = ⟨cfg, none, false⟩ := by
  unfold checkTicker
  rw [if_pos hcd]

/-- Unavailable snapshot: the fetch is counted but nothing fires. -/
theorem checkTicker_nofetch (now cooldown_sec : ℤ)
    (remaining_dips dip_spent dip_budget : ℚ) (current_week : ℤ)
    (fetch : String → Option Snapshot) (ticker : String) (cfg : TickerCfg)
    (hcd : ¬ now - cfg.last_sent_ts < cooldown_sec)
    (hf : fetch ticker = none) :
    checkTicker now cooldown_sec remaining_dips dip_spent dip_budget current_week
      fetch ticker cfg = ⟨cfg, none, true⟩ := by
  unfold checkTicker
  rw [if_neg hcd, hf]

/-- Snapshot available but the BUY condition does not hold: nothing fires. -/
theorem checkTicker_nobuy (now cooldown_sec : ℤ)
    (remaining_dips dip_spent dip_budget : ℚ) (current_week : ℤ)
    (fetch : String → Option Snapshot) (ticker : String) (cfg : TickerCfg)
    (s : Snapshot)
    (hcd : ¬ now - cfg.last_sent_ts < cooldown_sec)
    (hf : fetch ticker = some s)
    (hnb : ¬ (0 < cfg.buy_drop_pct ∧ cfg.buy_drop_pct ≤ s.drop_pct)) :
    checkTicker now cooldown_sec remaining_dips dip_spent dip_budget current_week
      fetch ticker cfg = ⟨cfg, none, true⟩ := by
  unfold checkTicker
  rw [if_neg hcd, hf]
  exact if_neg hnb

/-- The firing branch: config threshold positive and reached, cooldown
elapsed, snapshot present. -/
theorem checkTicker_fire (now cooldown_sec : ℤ)
    (remaining_dips dip_spent dip_budget : ℚ) (current_week : ℤ)
    (fetch : String → Option Snapshot) (ticker : String) (cfg : TickerCfg)
    (s : Snapshot)
    (hcd : ¬ now - cfg.last_sent_ts < cooldown_sec)
    (hf : fetch ticker = some s)
    (hb : 0 < cfg.buy_drop_pct) (hd : cfg.buy_drop_pct ≤ s.drop_pct) :
    checkTicker now cooldown_sec remaining_dips dip_spent dip_budget current_week
      fetch ticker cfg =
      ⟨{ (dcaStep remaining_dips dip_spent dip_budget current_week s.drop_pct cfg).2
          with last_sent_ts := now },
        some ⟨s.drop_pct, s.price, s.recent_high,
          (dcaStep remaining_dips dip_spent dip_budget current_week s.drop_pct cfg).1⟩,
        true⟩ := by
  unfold checkTicker
  rw [if_neg hcd, hf]
  exact if_pos ⟨hb, hd⟩

/-- Claim C1: for a record with a positive buy-drop threshold and a valid
snapshot, the per-ticker evaluation of `check_job` emits a BUY alert iff the
drawdown reaches the threshold (boundary inclusive) and the cooldown admits
(`now - last_sent_ts >= cooldown_sec`, boundary inclusive); on firing it
sets `last_sent_ts = now`. -/
theorem buy_fires_iff
    (now cooldown_sec : ℤ) (remaining dip_spent dip_budget : ℚ) (week : ℤ)
    (fetch : String → Option Snapshot) (tkr : String) (cfg : TickerCfg) (s : Snapshot)
    (ht : 0 < cfg.buy_drop_pct) (hs : fetch tkr = some s) :
    ((checkTicker now cooldown_sec remaining dip_spent dip_budget week fetch tkr cfg).alert.isSome
      ↔ cfg.buy_drop_pct ≤ s.drop_pct ∧ cooldown_sec ≤ now - cfg.last_sent_ts) ∧
    ((checkTicker now cooldown_sec remaining dip_spent dip_budget week fetch tkr cfg).alert.isSome →
      (checkTicker now cooldown_sec remaining dip_spent dip_budget week fetch tkr cfg).cfg.last_sent_ts = now) := by
  by_cases hcd : now - cfg.last_sent_ts < cooldown_sec
  · rw [checkTicker_cooldown now cooldown_sec remaining dip_spent dip_budget week fetch tkr cfg hcd]
    refine ⟨?_, ?_⟩
    · simp only [Option.isSome_none, Bool.false_eq_true, false_iff, not_and]
      intro _
      omega
    · intro h
      simp at h
  · by_cases hd : cfg.buy_drop_pct ≤ s.drop_pct
    · rw [checkTicker_fire now cooldown_sec remaining dip_spent dip_budget week fetch tkr cfg s hcd hs ht hd]
      exact ⟨by simp only [Option.isSome_some, true_iff]; exact ⟨hd, by omega⟩, fun _ => rfl⟩
    · rw [checkTicker_nobuy now cooldown_sec remaining dip_spent dip_budget week fetch tkr cfg s hcd hs
        (fun h => hd h.2)]
      refine ⟨?_, ?_⟩
      · simp only [Option.isSome_none, Bool.false_eq_true, false_iff, not_and]
        intro h
        exact absurd h hd
      · intro h
        simp at h

/-- Witness for claim C1: threshold 10, drawdown 12, cooldown long elapsed:
the alert fires and the cooldown timestamp is persisted. -/
theorem buy_fires_iff_witness :
    ((checkTicker 1000000 21600 40 0 40 500 (fun _ => some ⟨100, 110, 12⟩) "QQQ"
        ({ defaultCfg with buy_drop_pct := 10 })).alert.isSome
      ↔ (10 : ℚ) ≤ 12 ∧ (21600 : ℤ) ≤ 1000000 - 0) ∧
    ((checkTicker 1000000 21600 40 0 40 500 (fun _ => some ⟨100, 110, 12⟩) "QQQ"
        ({ defaultCfg with buy_drop_pct := 10 })).alert.isSome →
      (checkTicker 1000000 21600 40 0 40 500 (fun _ => some ⟨100, 110, 12⟩) "QQQ"
        ({ defaultCfg with buy_drop_pct := 10 })).cfg.last_sent_ts = 1000000) :=
  buy_fires_iff 1000000 21600 40 0 40 500 (fun _ => some ⟨100, 110, 12⟩) "QQQ"
    ({ defaultCfg with buy_drop_pct := 10 }) ⟨100, 110, 12⟩ (by decide) rfl

/-- Claim C3 counterexample: with the BUY cooldown still active, a drawdown
of 12 against a threshold of 10 (2 full points beyond the previously alerted
magnitude, which the claim says must fire) emits nothing: the code has no
escalation override and stores no `last_buy_drop_sent` field at all. -/
theorem escalation_counterexample :
    (checkTicker 1000 21600 40 0 40 500 (fun _ => some ⟨100, 114, 12⟩) "QQQ"
        ({ defaultCfg with buy_drop_pct := 10, last_sent_ts := 900 })).alert = none ∧
    (2 : ℚ) ≤ 12 - 10 ∧ (1000 : ℤ) - 900 < 21600 := by
  refine ⟨by decide, by norm_num, by decide⟩

/-- Claim C3 amended: while the BUY cooldown has not elapsed the ticker is
skipped unconditionally: no alert fires regardless of the drawdown, and the
record is untouched. -/
theorem cooldown_active_never_fires
    (now cooldown_sec : ℤ) (remaining dip_spent dip_budget : ℚ) (week : ℤ)
    (fetch : String → Option Snapshot) (tkr : String) (cfg : TickerCfg)
    (hcd : now - cfg.last_sent_ts < cooldown_sec) :
    (checkTicker now cooldown_sec remaining dip_spent dip_budget week fetch tkr cfg).alert = none ∧
    (checkTicker now cooldown_sec remaining dip_spent dip_budget week fetch tkr cfg).cfg = cfg := by
  rw [checkTicker_cooldown now cooldown_sec remaining dip_spent dip_budget week fetch tkr cfg hcd]
  exact ⟨rfl, rfl⟩

/-- Witness for claim C3 amended: cooldown active (100 s of 21600 s),
drawdown 12 over threshold 10, nothing fires. -/
theorem cooldown_active_never_fires_witness :
    (checkTicker 1000 21600 40 0 40 500 (fun _ => some ⟨100, 114, 12⟩) "QQQ"
        ({ defaultCfg with buy_drop_pct := 10, last_sent_ts := 900 })).alert = none ∧
    (checkTicker 1000 21600 40 0 40 500 (fun _ => some ⟨100, 114, 12⟩) "QQQ"
        ({ defaultCfg with buy_drop_pct := 10, last_sent_ts := 900 })).cfg
      = { defaultCfg with buy_drop_pct := 10, last_sent_ts := 900 } :=
  cooldown_active_never_fires 1000 21600 40 0 40 500 (fun _ => some ⟨100, 114, 12⟩) "QQQ"
    ({ defaultCfg with buy_drop_pct := 10, last_sent_ts := 900 }) (by decide)

lemma dcaStep_ignores_tp_sl (remaining dip_spent dip_budget : ℚ) (week : ℤ)
    (drop : ℚ) (cfg : TickerCfg) (e : Option ℚ) (t' s' : ℚ) :
    (dcaStep remaining dip_spent dip_budget week drop
      ({ cfg with entry := e, tp := t', sl := s' })).1
    = (dcaStep remaining dip_spent dip_budget week drop cfg).1 := by
  unfold dcaStep
  dsimp only
  split <;> split_ifs <;> rfl

/-- Claim C2 counterexample: a record with `entry_price = 100`,
`take_profit_pct = 10`, `stop_loss_pct = 5` and a snapshot price of 112
satisfies the claimed TP condition (`112 >= 100 * 1.1`) with the cooldown
elapsed, yet the evaluation emits nothing: `check_job` contains no
take-profit evaluation. -/
theorem tp_counterexample :
    (checkTicker 1000000 21600 40 0 40 500 (fun _ => some ⟨112, 112, 0⟩) "QQQ"
        ({ defaultCfg with entry := some 100, tp := 10, sl := 5 })).alert = none ∧
    (112 : ℚ) ≥ 100 * (1 + 10 / 100) ∧ (21600 : ℤ) ≤ 1000000 - 0 := by
  refine ⟨by decide, by norm_num, by decide⟩

/-- Claim C2 amended: the evaluation cycle never emits TP or SL intents:
the stored `entry`, `tp` and `sl` fields have no influence on what the
per-ticker evaluation emits or fetches (the only message shape the job
builds is the BUY drawdown alert). -/
theorem tp_sl_entry_never_evaluated
    (now cooldown_sec : ℤ) (remaining dip_spent dip_budget : ℚ) (week : ℤ)
    (fetch : String → Option Snapshot) (tkr : String) (cfg : TickerCfg)
    (e : Option ℚ) (t' s' : ℚ) :
    (checkTicker now cooldown_sec remaining dip_spent dip_budget week fetch tkr
        ({ cfg with entry := e, tp := t', sl := s' })).alert
      = (checkTicker now cooldown_sec remaining dip_spent dip_budget week fetch tkr cfg).alert ∧
    (checkTicker now cooldown_sec remaining dip_spent dip_budget week fetch tkr
        ({ cfg with entry := e, tp := t', sl := s' })).fetched
      = (checkTicker now cooldown_sec remaining dip_spent dip_budget week fetch tkr cfg).fetched := by
  set cfg' : TickerCfg := { cfg with entry := e, tp := t', sl := s' } with hcfg'
  by_cases hcd : now - cfg.last_sent_ts < cooldown_sec
  · rw [checkTicker_cooldown now cooldown_sec remaining dip_spent dip_budget week fetch tkr cfg hcd,
      checkTicker_cooldown now cooldown_sec remaining dip_spent dip_budget week fetch tkr cfg' hcd]
    exact ⟨rfl, rfl⟩
  · cases hf : fetch tkr with
    | none =>
      rw [checkTicker_nofetch now cooldown_sec remaining dip_spent dip_budget week fetch tkr cfg hcd hf,
        checkTicker_nofetch now cooldown_sec remaining dip_spent dip_budget week fetch tkr cfg' hcd hf]
      exact ⟨rfl, rfl⟩
    | some s =>
      by_cases hb : 0 < cfg.buy_drop_pct ∧ cfg.buy_drop_pct ≤ s.drop_pct
      · rw [checkTicker_fire now cooldown_sec remaining dip_spent dip_budget week fetch tkr cfg s hcd hf hb.1 hb.2,
          checkTicker_fire now cooldown_sec remaining dip_spent dip_budget week fetch tkr cfg' s hcd hf hb.1 hb.2]
        refine ⟨?_, rfl⟩
        simp only [Option.some.injEq, BuyAlert.mk.injEq, true_and]
        rw [hcfg']
        exact dcaStep_ignores_tp_sl remaining dip_spent dip_budget week s.drop_pct cfg e t' s'
      · rw [checkTicker_nobuy now cooldown_sec remaining dip_spent dip_budget week fetch tkr cfg s hcd hf hb,
          checkTicker_nobuy now cooldown_sec remaining dip_spent dip_budget week fetch tkr cfg' s hcd hf hb]
        exact ⟨rfl, rfl⟩

lemma dca_suggestion_append (d : ℚ) (l : List (ℚ × ℚ)) (t : ℚ × ℚ) :
    dca_suggestion d (l ++ [t])
      = if d ≥ t.1 then some t.2 else dca_suggestion d l := by
  unfold dca_suggestion
  rw [List.foldl_append]
  rfl

/-- Claim C4: for a tier list sorted ascending by drawdown, `dca_suggestion`
returns the amount of the largest tier whose drawdown threshold is at most
the current drawdown (the highest-qualifying tier) and nothing when no tier
qualifies; for tiers [(10,15),(15,25),(20,40)] and drawdown 17 the
suggestion is 25, not 40 and not 15. -/
theorem dca_suggestion_highest_tier (d : ℚ) (tiers : List (ℚ × ℚ))
    (hsorted : tiers.Pairwise (fun a b => a.1 ≤ b.1)) :
    (dca_suggestion d tiers = none ↔ ∀ t ∈ tiers, d < t.1) ∧
    (∀ a, dca_suggestion d tiers = some a →
      ∃ t ∈ tiers, t.1 ≤ d ∧ t.2 = a ∧ ∀ t' ∈ tiers, t'.1 ≤ d → t'.1 ≤ t.1) ∧
    dca_suggestion 17 [(10, 15), (15, 25), (20, 40)] = some 25 ∧
    dca_suggestion 17 [(10, 15), (15, 25), (20, 40)] ≠ some 40 ∧
    dca_suggestion 17 [(10, 15), (15, 25), (20, 40)] ≠ some 15 := by
  refine ⟨?_, ?_, by decide, by decide, by decide⟩
  · induction tiers using List.reverseRecOn with
    | nil => simp [dca_suggestion]
    | append_singleton l t ih =>
      rw [List.pairwise_append] at hsorted
      obtain ⟨hl, -, -⟩ := hsorted
      have ihl := ih hl
      rw [dca_suggestion_append]
      by_cases hq : d ≥ t.1
      · rw [if_pos hq]
        constructor
        · intro h
          exact absurd h (Option.some_ne_none _)
        · intro h
          exact absurd (h t (by simp)) (not_lt.mpr hq)
      · rw [if_neg hq, ihl]
        constructor
        · intro h t' ht'
          rcases List.mem_append.mp ht' with h1 | h2
          · exact h t' h1
          · rw [List.mem_singleton.mp h2]
            exact lt_of_not_ge hq
        · intro h t' ht'
          exact h t' (List.mem_append_left _ ht')
  · induction tiers using List.reverseRecOn with
    | nil => simp [dca_suggestion]
    | append_singleton l t ih =>
      rw [List.pairwise_append] at hsorted
      obtain ⟨hl, -, hle⟩ := hsorted
      have ihl := ih hl
      rw [dca_suggestion_append]
      by_cases hq : d ≥ t.1
      · rw [if_pos hq]
        intro a ha
        refine ⟨t, by simp, hq, (Option.some.injEq _ _).mp ha, ?_⟩
        intro t' ht' _
        rcases List.mem_append.mp ht' with h1 | h2
        · exact hle t' h1 t (List.mem_singleton_self t)
        · rw [List.mem_singleton.mp h2]
      · rw [if_neg hq]
        intro a ha
        obtain ⟨t0, ht0, ht0d, ht0a, hmax⟩ := ihl a ha
        refine ⟨t0, List.mem_append_left _ ht0, ht0d, ht0a, ?_⟩
        intro t' ht' ht'd
        rcases List.mem_append.mp ht' with h1 | h2
        · exact hmax t' h1 ht'd
        · rw [List.mem_singleton.mp h2] at ht'd
          exact absurd ht'd hq

/-- Witness for claim C4 at the sorted tier list [(10,15),(15,25),(20,40)]
and drawdown 17. -/
theorem dca_suggestion_highest_tier_witness :
    (dca_suggestion 17 [(10, 15), (15, 25), (20, 40)] = none
        ↔ ∀ t ∈ ([(10, 15), (15, 25), (20, 40)] : List (ℚ × ℚ)), (17:ℚ) < t.1) ∧
    (∀ a, dca_suggestion 17 [(10, 15), (15, 25), (20, 40)] = some a →
      ∃ t ∈ ([(10, 15), (15, 25), (20, 40)] : List (ℚ × ℚ)), t.1 ≤ 17 ∧ t.2 = a ∧
        ∀ t' ∈ ([(10, 15), (15, 25), (20, 40)] : List (ℚ × ℚ)), t'.1 ≤ 17 → t'.1 ≤ t.1) ∧
    dca_suggestion 17 [(10, 15), (15, 25), (20, 40)] = some 25 ∧
    dca_suggestion 17 [(10, 15), (15, 25), (20, 40)] ≠ some 40 ∧
    dca_suggestion 17 [(10, 15), (15, 25), (20, 40)] ≠ some 15 :=
  dca_suggestion_highest_tier 17 [(10, 15), (15, 25), (20, 40)] (by decide)

lemma dcaStep_suggest_or_exhaust (remaining dip_spent dip_budget : ℚ) (week : ℤ) (drop : ℚ)
    (cfg : TickerCfg) (a : ℚ)
    (ha : dca_suggestion drop (parse_dca cfg.dca) = some a)
    (hweek : week ≠ cfg.last_dca_sent_week) (hamt : 0 < a) :
    (0 < remaining →
      dcaStep remaining dip_spent dip_budget week drop cfg
        = (DcaNote.suggest (min a remaining) remaining dip_budget,
            { cfg with last_dca_sent_week := week })) ∧
    (remaining ≤ 0 →
      dcaStep remaining dip_spent dip_budget week drop cfg
        = (DcaNote.exhausted dip_spent dip_budget, cfg)) := by
  have htiers : ¬ ((parse_dca cfg.dca).isEmpty = true) := by
    intro h
    rw [List.isEmpty_iff] at h
    rw [h] at ha
    simp [dca_suggestion] at ha
  have hdca : ¬ (cfg.dca.isEmpty = true) := by
    intro h
    rw [List.isEmpty_iff] at h
    rw [h] at ha
    simp [parse_dca, sortTiers, dca_suggestion] at ha
  unfold dcaStep
  dsimp only
  rw [if_neg hdca, if_neg htiers]
  simp only [ha]
  refine ⟨?_, ?_⟩
  · intro hr
    rw [if_pos ⟨hr, hweek⟩, if_pos (lt_min hamt hr)]
  · intro hr
    rw [if_neg (show ¬ (0 < remaining ∧ week ≠ cfg.last_dca_sent_week) from
        fun hc => absurd hc.1 (not_lt.mpr hr)),
      if_pos hr]

/-- Claim C5: when the BUY alert fires, a DCA tier qualifies (yielding a
positive amount) and no suggestion was sent this budget week, the note
suggests `min(amount, remaining_dips)` when the remaining dip budget is
positive, and reports budget exhaustion instead when the remaining dip
budget is `<= 0`. -/
theorem dca_budget_cap
    (now cooldown_sec : ℤ) (remaining dip_spent dip_budget : ℚ) (week : ℤ)
    (fetch : String → Option Snapshot) (tkr : String) (cfg : TickerCfg)
    (s : Snapshot) (a : ℚ)
    (hcd : cooldown_sec ≤ now - cfg.last_sent_ts)
    (hf : fetch tkr = some s)
    (hb : 0 < cfg.buy_drop_pct) (hd : cfg.buy_drop_pct ≤ s.drop_pct)
    (ha : dca_suggestion s.drop_pct (parse_dca cfg.dca) = some a)
    (hamt : 0 < a) (hweek : week ≠ cfg.last_dca_sent_week) :
    (0 < remaining →
      (checkTicker now cooldown_sec remaining dip_spent dip_budget week fetch tkr cfg).alert
        = some ⟨s.drop_pct, s.price, s.recent_high,
            DcaNote.suggest (min a remaining) remaining dip_budget⟩) ∧
    (remaining ≤ 0 →
      (checkTicker now cooldown_sec remaining dip_spent dip_budget week fetch tkr cfg).alert
        = some ⟨s.drop_pct, s.price, s.recent_high,
            DcaNote.exhausted dip_spent dip_budget⟩) := by
  rw [checkTicker_fire now cooldown_sec remaining dip_spent dip_budget week fetch tkr cfg s
    (not_lt.mpr hcd) hf hb hd]
  refine ⟨?_, ?_⟩
  · intro hr
    rw [(dcaStep_suggest_or_exhaust remaining dip_spent dip_budget week s.drop_pct cfg a ha hweek hamt).1 hr]
  · intro hr
    rw [(dcaStep_suggest_or_exhaust remaining dip_spent dip_budget week s.drop_pct cfg a ha hweek hamt).2 hr]

/-- Witness for claim C5: a 25-dollar tier against 10 dollars of remaining
dip budget suggests 10; with nothing remaining the exhausted note is
reported instead. -/
theorem dca_budget_cap_witness :
    (checkTicker 1000000 21600 10 30 40 500
        (fun _ => some ⟨100, 119, 16⟩) "QQQ"
        ({ defaultCfg with
            buy_drop_pct := 10
            dca := [DcaToken.pair (some 10) (some 15), DcaToken.pair (some 15) (some 25)] })).alert
      = some ⟨16, 100, 119, DcaNote.suggest 10 10 40⟩ ∧
    (checkTicker 1000000 21600 0 40 40 500
        (fun _ => some ⟨100, 119, 16⟩) "QQQ"
        ({ defaultCfg with
            buy_drop_pct := 10
            dca := [DcaToken.pair (some 10) (some 15), DcaToken.pair (some 15) (some 25)] })).alert
      = some ⟨16, 100, 119, DcaNote.exhausted 40 40⟩ := by
  constructor
  · have h := (dca_budget_cap 1000000 21600 10 30 40 500
      (fun _ => some ⟨100, 119, 16⟩) "QQQ"
      ({ defaultCfg with
          buy_drop_pct := 10
          dca := [DcaToken.pair (some 10) (some 15), DcaToken.pair (some 15) (some 25)] })
      ⟨100, 119, 16⟩ 25 (by decide) rfl (by decide) (by decide) (by decide) (by decide)
      (by decide)).1 (by decide)
    rw [min_eq_right (by norm_num : (10:ℚ) ≤ 25)] at h
    exact h
  · exact (dca_budget_cap 1000000 21600 0 40 40 500
      (fun _ => some ⟨100, 119, 16⟩) "QQQ"
      ({ defaultCfg with
          buy_drop_pct := 10
          dca := [DcaToken.pair (some 10) (some 15), DcaToken.pair (some 15) (some 25)] })
      ⟨100, 119, 16⟩ 25 (by decide) rfl (by decide) (by decide) (by decide) (by decide)
      (by decide)).2 (by decide)

lemma dcaStep_suggest_inv (remaining dip_spent dip_budget : ℚ) (week : ℤ)
    (drop : ℚ) (cfg : TickerCfg) (x y z : ℚ)
    (hn : (dcaStep remaining dip_spent dip_budget week drop cfg).1
      = DcaNote.suggest x y z) :
    week ≠ cfg.last_dca_sent_week ∧
    (dcaStep remaining dip_spent dip_budget week drop cfg).2
      = { cfg with last_dca_sent_week := week } := by
  unfold dcaStep at *
  dsimp only at *
  revert hn
  split
  · split_ifs with h1 h2
    · intro _
      exact ⟨h1.2, rfl⟩
    · intro hn
      simp at hn
    · intro hn
      simp at hn
    · intro hn
      simp at hn
  · split_ifs with h1
    · intro hn
      simp at hn
    · intro hn
      simp at hn

lemma dcaStep_same_week_no_suggest (remaining dip_spent dip_budget : ℚ) (week : ℤ)
    (drop : ℚ) (cfg : TickerCfg)
    (hw : week = cfg.last_dca_sent_week) :
    ∀ x y z, (dcaStep remaining dip_spent dip_budget week drop cfg).1
      ≠ DcaNote.suggest x y z := by
  intro x y z
  unfold dcaStep
  dsimp only
  split <;> split_ifs <;> simp_all

lemma checkTicker_same_week_no_suggest
    (now cooldown_sec : ℤ) (remaining dip_spent dip_budget : ℚ) (week : ℤ)
    (fetch : String → Option Snapshot) (tkr : String) (cfg : TickerCfg)
    (hw : week = cfg.last_dca_sent_week) (al : BuyAlert)
    (hal : (checkTicker now cooldown_sec remaining dip_spent dip_budget week fetch tkr cfg).alert
      = some al) :
    ∀ x y z, al.note ≠ DcaNote.suggest x y z := by
  intro x y z hn
  by_cases hcd : now - cfg.last_sent_ts < cooldown_sec
  · rw [checkTicker_cooldown now cooldown_sec remaining dip_spent dip_budget week fetch tkr cfg hcd] at hal
    exact absurd hal (by simp)
  · cases hf : fetch tkr with
    | none =>
      rw [checkTicker_nofetch now cooldown_sec remaining dip_spent dip_budget week fetch tkr cfg hcd hf] at hal
      exact absurd hal (by simp)
    | some s =>
      by_cases hb : 0 < cfg.buy_drop_pct ∧ cfg.buy_drop_pct ≤ s.drop_pct
      · rw [checkTicker_fire now cooldown_sec remaining dip_spent dip_budget week fetch tkr cfg s hcd hf hb.1 hb.2] at hal
        have : al.note = (dcaStep remaining dip_spent dip_budget week s.drop_pct cfg).1 := by
          rw [← Option.some_inj.mp hal]
        rw [hn] at this
        exact dcaStep_same_week_no_suggest remaining dip_spent dip_budget week s.drop_pct cfg hw
          x y z this.symm
      · rw [checkTicker_nobuy now cooldown_sec remaining dip_spent dip_budget week fetch tkr cfg s hcd hf hb] at hal
        exact absurd hal (by simp)

/-- Claim C6 counterexample: with the BUY cooldown active, a fresh budget
week (marker 500 against stored 0), a qualifying tier and a positive
remaining dip budget, the per-ticker evaluation emits nothing at all: the
DCA suggestion is not independent of the BUY cooldown. -/
theorem dca_blocked_by_cooldown_counterexample :
    (checkTicker 1000 21600 40 0 40 500
        (fun _ => some ⟨100, 119, 16⟩) "QQQ"
        ({ defaultCfg with
          buy_drop_pct := 10
          last_sent_ts := 900
          dca := [DcaToken.pair (some 10) (some 15), DcaToken.pair (some 15) (some 25)] }))
      = ⟨{ defaultCfg with
          buy_drop_pct := 10
          last_sent_ts := 900
          dca := [DcaToken.pair (some 10) (some 15), DcaToken.pair (some 15) (some 25)] },
        none, false⟩ ∧
    (1000 : ℤ) - 900 < 21600 ∧
    (500 : ℤ) ≠ 0 ∧
    dca_suggestion 16 [(10, 15), (15, 25)] = some 25 ∧
    (0 : ℚ) < 40 := by
  exact ⟨by decide, by decide, by decide, by decide, by decide⟩

/-- Claim C6 amended: a DCA suggestion fires at most once per budget week:
a fired suggestion requires the stored week marker to differ from the
current week, it records the current week, and any later evaluation in the
same week against the updated record never carries a suggestion. (It also
only ever fires together with a BUY alert, so an active BUY cooldown blocks
it.) -/
theorem dca_once_per_week
    (now cooldown_sec : ℤ) (remaining dip_spent dip_budget : ℚ) (week : ℤ)
    (fetch : String → Option Snapshot) (tkr : String) (cfg : TickerCfg)
    (al : BuyAlert) (x y z : ℚ)
    (hal : (checkTicker now cooldown_sec remaining dip_spent dip_budget week fetch tkr cfg).alert
      = some al)
    (hn : al.note = DcaNote.suggest x y z) :
    week ≠ cfg.last_dca_sent_week ∧
    (checkTicker now cooldown_sec remaining dip_spent dip_budget week fetch tkr cfg).cfg.last_dca_sent_week
      = week ∧
    (∀ (now2 cooldown2 : ℤ) (rem2 spent2 budget2 : ℚ)
        (fetch2 : String → Option Snapshot) (tkr2 : String) (al2 : BuyAlert),
      (checkTicker now2 cooldown2 rem2 spent2 budget2 week fetch2 tkr2
          (checkTicker now cooldown_sec remaining dip_spent dip_budget week fetch tkr cfg).cfg).alert
        = some al2 →
      ∀ x2 y2 z2, al2.note ≠ DcaNote.suggest x2 y2 z2) := by
  by_cases hcd : now - cfg.last_sent_ts < cooldown_sec
  · rw [checkTicker_cooldown now cooldown_sec remaining dip_spent dip_budget week fetch tkr cfg hcd] at hal
    exact absurd hal (by simp)
  · cases hf : fetch tkr with
    | none =>
      rw [checkTicker_nofetch now cooldown_sec remaining dip_spent dip_budget week fetch tkr cfg hcd hf] at hal
      exact absurd hal (by simp)
    | some s =>
      by_cases hb : 0 < cfg.buy_drop_pct ∧ cfg.buy_drop_pct ≤ s.drop_pct
      · have hfire := checkTicker_fire now cooldown_sec remaining dip_spent dip_budget week
          fetch tkr cfg s hcd hf hb.1 hb.2
        rw [hfire] at hal
        have hnote : (dcaStep remaining dip_spent dip_budget week s.drop_pct cfg).1
            = DcaNote.suggest x y z := by
          rw [← hn, ← Option.some_inj.mp hal]
        obtain ⟨hne, hcfg2⟩ := dcaStep_suggest_inv remaining dip_spent dip_budget week
          s.drop_pct cfg x y z hnote
        refine ⟨hne, ?_, ?_⟩
        · rw [hfire]
          simp only
          rw [hcfg2]
        · intro now2 cooldown2 rem2 spent2 budget2 fetch2 tkr2 al2 hal2 x2 y2 z2
          refine checkTicker_same_week_no_suggest now2 cooldown2 rem2 spent2 budget2 week
            fetch2 tkr2 _ ?_ al2 hal2 x2 y2 z2
          rw [hfire]
          simp only
          rw [hcfg2]
      · rw [checkTicker_nobuy now cooldown_sec remaining dip_spent dip_budget week fetch tkr cfg s hcd hf hb] at hal
        exact absurd hal (by simp)

/-- Witness for claim C6 amended: a concrete fired suggestion records week
500 and blocks every same-week re-suggestion. -/
theorem dca_once_per_week_witness :
    (500 : ℤ) ≠ 0 ∧
    (checkTicker 1000000 21600 10 30 40 500
        (fun _ => some ⟨100, 119, 16⟩) "QQQ"
        ({ defaultCfg with
          buy_drop_pct := 10
          dca := [DcaToken.pair (some 10) (some 15), DcaToken.pair (some 15) (some 25)] })).cfg.last_dca_sent_week
      = 500 ∧
    (∀ (now2 cooldown2 : ℤ) (rem2 spent2 budget2 : ℚ)
        (fetch2 : String → Option Snapshot) (tkr2 : String) (al2 : BuyAlert),
      (checkTicker now2 cooldown2 rem2 spent2 budget2 500 fetch2 tkr2
          (checkTicker 1000000 21600 10 30 40 500
            (fun _ => some ⟨100, 119, 16⟩) "QQQ"
            ({ defaultCfg with
              buy_drop_pct := 10
              dca := [DcaToken.pair (some 10) (some 15), DcaToken.pair (some 15) (some 25)] })).cfg).alert
        = some al2 →
      ∀ x2 y2 z2, al2.note ≠ DcaNote.suggest x2 y2 z2) :=
  dca_once_per_week 1000000 21600 10 30 40 500
    (fun _ => some ⟨100, 119, 16⟩) "QQQ"
    ({ defaultCfg with
      buy_drop_pct := 10
      dca := [DcaToken.pair (some 10) (some 15), DcaToken.pair (some 15) (some 25)] })
    ⟨16, 100, 119, DcaNote.suggest 10 10 40⟩ 10 10 40 (by decide) (by decide)

/-- Claim C8: when the stored week Monday differs from the canonical Monday
of the current week, `ensure_week_reset` zeroes both spent counters and
stores the new Monday while leaving the budget caps and every other account
field unchanged; when they agree the record is returned unchanged. -/
theorem week_rollover_resets_and_preserves (now : ℤ) (u : UserState) :
    (u.week_state.week_monday_ts ≠ monday_of_week now →
      (ensure_week_reset now u).week_state = ⟨monday_of_week now, 0, 0⟩ ∧
      (ensure_week_reset now u).weekly_budget = u.weekly_budget ∧
      (ensure_week_reset now u).dip_budget = u.dip_budget ∧
      (ensure_week_reset now u).alerts = u.alerts ∧
      (ensure_week_reset now u).cooldown_min = u.cooldown_min ∧
      (ensure_week_reset now u).weekly_plan = u.weekly_plan ∧
      (ensure_week_reset now u).trial = u.trial ∧
      (ensure_week_reset now u).premium = u.premium) ∧
    (u.week_state.week_monday_ts = monday_of_week now →
      ensure_week_reset now u = u) := by
  unfold ensure_week_reset
  refine ⟨fun h => ?_, fun h => ?_⟩
  · rw [if_pos h]
    exact ⟨rfl, rfl, rfl, rfl, rfl, rfl, rfl, rfl⟩
  · rw [if_neg (by simp [h])]

/-- Witness for claim C8: rolling over from the previous week Monday
1759104000 at now = 1760000000 resets the counters 12 and 30 to zero and
keeps the caps 70 and 40; a record already on the current Monday is
unchanged. -/
theorem week_rollover_witness :
    ((⟨[], 360, 70, 40, [], ⟨1759104000, 12, 30⟩, ⟨1, 7⟩, ⟨false, 0⟩⟩ : UserState).week_state.week_monday_ts
        ≠ monday_of_week 1760000000 ∧
      (ensure_week_reset 1760000000
        (⟨[], 360, 70, 40, [], ⟨1759104000, 12, 30⟩, ⟨1, 7⟩, ⟨false, 0⟩⟩ : UserState)).week_state
        = ⟨monday_of_week 1760000000, 0, 0⟩ ∧
      (ensure_week_reset 1760000000
        (⟨[], 360, 70, 40, [], ⟨1759104000, 12, 30⟩, ⟨1, 7⟩, ⟨false, 0⟩⟩ : UserState)).weekly_budget = 70 ∧
      (ensure_week_reset 1760000000
        (⟨[], 360, 70, 40, [], ⟨1759104000, 12, 30⟩, ⟨1, 7⟩, ⟨false, 0⟩⟩ : UserState)).dip_budget = 40) ∧
    ensure_week_reset 1760000000
        (⟨[], 360, 70, 40, [], ⟨1759708800, 12, 30⟩, ⟨1, 7⟩, ⟨false, 0⟩⟩ : UserState)
      = ⟨[], 360, 70, 40, [], ⟨1759708800, 12, 30⟩, ⟨1, 7⟩, ⟨false, 0⟩⟩ := by
  constructor
  · have h := (week_rollover_resets_and_preserves 1760000000
      (⟨[], 360, 70, 40, [], ⟨1759104000, 12, 30⟩, ⟨1, 7⟩, ⟨false, 0⟩⟩ : UserState)).1
      (by decide)
    exact ⟨by decide, h.1, h.2.1, h.2.2.1⟩
  · exact (week_rollover_resets_and_preserves 1760000000
      (⟨[], 360, 70, 40, [], ⟨1759708800, 12, 30⟩, ⟨1, 7⟩, ⟨false, 0⟩⟩ : UserState)).2
      (by decide)

lemma ensure_trial_alerts (now : ℤ) (u : UserState) :
    (ensure_trial now u).alerts = u.alerts := by
  unfold ensure_trial
  split <;> rfl

/-- Claim C10: an account that is not premium/trial-active and already has
two or more tickers has `/add` rejected with the FREE-limit message and its
stored record unchanged; a premium or trial-active account is never subject
to the limit and gets the ticker upserted. The spec does not state this
limit. -/
theorem free_two_ticker_limit (now : ℤ) (tkr : String) (p : ℚ) (u : UserState)
    (hprem : premium_active now (ensure_trial now u) = false)
    (hlen : 2 ≤ u.alerts.length)
    (hp : 0 < p) (hp80 : p ≤ 80) :
    add_cmd now tkr (some p) u = (u, AddReply.limit freeLimitMsg) ∧
    (∀ u' : UserState, premium_active now (ensure_trial now u') = true →
      (add_cmd now tkr (some p) u').2 = AddReply.created tkr p ∧
      (add_cmd now tkr (some p) u').1.alerts
        = upsertAlert (ensure_trial now u').alerts tkr p) := by
  constructor
  · unfold add_cmd
    dsimp only
    rw [if_neg (by push_neg; exact ⟨hp, hp80⟩)]
    have hok : free_limits_ok now (ensure_trial now u) = (false, freeLimitMsg) := by
      unfold free_limits_ok
      rw [hprem]
      rw [if_neg (by simp), if_pos (by rw [ensure_trial_alerts]; exact hlen)]
    simp [hok]
  · intro u' hprem'
    unfold add_cmd
    dsimp only
    rw [if_neg (by push_neg; exact ⟨hp, hp80⟩)]
    have hok : free_limits_ok now (ensure_trial now u') = (true, "") := by
      unfold free_limits_ok
      rw [hprem']
      rw [if_pos (by simp)]
    simp [hok]

/-- Witness for claim C10: an expired-trial account with two tickers is
rejected unchanged; any premium/trial-active account gets MSFT upserted. -/
theorem free_two_ticker_limit_witness :
    add_cmd 1000000 "MSFT" (some 10)
        (⟨[("QQQ", defaultCfg), ("NVDA", defaultCfg)], 360, 70, 40, [],
          ⟨1759708800, 0, 0⟩, ⟨1, 7⟩, ⟨false, 0⟩⟩ : UserState)
      = ((⟨[("QQQ", defaultCfg), ("NVDA", defaultCfg)], 360, 70, 40, [],
          ⟨1759708800, 0, 0⟩, ⟨1, 7⟩, ⟨false, 0⟩⟩ : UserState),
        AddReply.limit freeLimitMsg) ∧
    (∀ u' : UserState, premium_active 1000000 (ensure_trial 1000000 u') = true →
      (add_cmd 1000000 "MSFT" (some 10) u').2 = AddReply.created "MSFT" 10 ∧
      (add_cmd 1000000 "MSFT" (some 10) u').1.alerts
        = upsertAlert (ensure_trial 1000000 u').alerts "MSFT" 10) :=
  free_two_ticker_limit 1000000 "MSFT" 10
    (⟨[("QQQ", defaultCfg), ("NVDA", defaultCfg)], 360, 70, 40, [],
      ⟨1759708800, 0, 0⟩, ⟨1, 7⟩, ⟨false, 0⟩⟩ : UserState)
    (by decide) (by decide) (by decide) (by decide)

lemma ensure_week_reset_frame (now : ℤ) (u : UserState) :
    (ensure_week_reset now u).alerts = u.alerts ∧
    (ensure_week_reset now u).cooldown_min = u.cooldown_min := by
  unfold ensure_week_reset
  dsimp only
  split <;> exact ⟨rfl, rfl⟩

lemma runTickers_complete (now cooldown_sec : ℤ)
    (remaining dip_spent dip_budget : ℚ) (week : ℤ)
    (fetch : String → Option Snapshot) (send : String → String → Bool) (chat : String)
    (hsend : ∀ c t, send c t = true) (alerts : List (String × TickerCfg)) :
    (runTickers now cooldown_sec remaining dip_spent dip_budget week fetch send chat alerts).fetches
      = (alerts.filter fun q => decide (cooldown_sec ≤ now - q.2.last_sent_ts)).map Prod.fst ∧
    (runTickers now cooldown_sec remaining dip_spent dip_budget week fetch send chat alerts).ok
      = true := by
  induction alerts with
  | nil => exact ⟨rfl, rfl⟩
  | cons hd tl ih =>
    obtain ⟨tkr, cfg⟩ := hd
    unfold runTickers
    by_cases hcd : now - cfg.last_sent_ts < cooldown_sec
    · rw [checkTicker_cooldown now cooldown_sec remaining dip_spent dip_budget week fetch tkr cfg hcd]
      try dsimp only
      refine ⟨?_, ih.2⟩
      rw [List.filter_cons_of_neg (by simpa using not_le.mpr hcd)]
      exact ih.1
    · cases hf : fetch tkr with
      | none =>
        rw [checkTicker_nofetch now cooldown_sec remaining dip_spent dip_budget week fetch tkr cfg hcd hf]
        try dsimp only
        refine ⟨?_, ih.2⟩
        rw [List.filter_cons_of_pos (by simpa using not_lt.mp hcd), List.map_cons]
        rw [ih.1]
        rfl
      | some s =>
        by_cases hb : 0 < cfg.buy_drop_pct ∧ cfg.buy_drop_pct ≤ s.drop_pct
        · rw [checkTicker_fire now cooldown_sec remaining dip_spent dip_budget week fetch tkr cfg s hcd hf hb.1 hb.2]
          try dsimp only
          rw [hsend chat tkr]
          try dsimp only
          refine ⟨?_, ih.2⟩
          rw [List.filter_cons_of_pos (by simpa using not_lt.mp hcd), List.map_cons]
          rw [ih.1]
          rfl
        · rw [checkTicker_nobuy now cooldown_sec remaining dip_spent dip_budget week fetch tkr cfg s hcd hf hb]
          try dsimp only
          refine ⟨?_, ih.2⟩
          rw [List.filter_cons_of_pos (by simpa using not_lt.mp hcd), List.map_cons]
          rw [ih.1]
          rfl

lemma checkUser_complete (now : ℤ) (fetch : String → Option Snapshot)
    (send : String → String → Bool) (chat : String) (u : UserState)
    (hsend : ∀ c t, send c t = true) :
    (checkUser now fetch send chat u).fetches
      = (u.alerts.filter fun q =>
          decide (u.cooldown_min * 60 ≤ now - q.2.last_sent_ts)).map Prod.fst ∧
    (checkUser now fetch send chat u).ok = true := by
  obtain ⟨hA, hC⟩ := ensure_week_reset_frame now u
  unfold checkUser
  by_cases he : (ensure_week_reset now u).alerts.isEmpty
  · rw [if_pos he]
    refine ⟨?_, rfl⟩
    rw [hA] at he
    rw [List.isEmpty_iff.mp he]
    rfl
  · rw [if_neg he]
    dsimp only
    rw [hA, hC]
    exact runTickers_complete now (u.cooldown_min * 60)
      (max 0 ((ensure_week_reset now u).dip_budget - (ensure_week_reset now u).week_state.dip_spent))
      (ensure_week_reset now u).week_state.dip_spent (ensure_week_reset now u).dip_budget
      (ensure_week_reset now u).week_state.week_monday_ts fetch send chat hsend u.alerts

lemma runUsers_complete (now : ℤ) (fetch : String → Option Snapshot)
    (send : String → String → Bool) (hsend : ∀ c t, send c t = true)
    (data : List (String × UserState)) :
    (runUsers now fetch send data).fetches
      = data.flatMap (fun p =>
          (p.2.alerts.filter fun q =>
            decide (p.2.cooldown_min * 60 ≤ now - q.2.last_sent_ts)).map Prod.fst) ∧
    (runUsers now fetch send data).ok = true := by
  induction data with
  | nil => exact ⟨rfl, rfl⟩
  | cons hd tl ih =>
    obtain ⟨chat, u⟩ := hd
    unfold runUsers
    obtain ⟨hf, hok⟩ := checkUser_complete now fetch send chat u hsend
    simp only [hok, if_true, List.flatMap_cons]
    exact ⟨by rw [hf, ih.1], ih.2⟩

/-- Claim C7 counterexample: two rule records of different accounts on the
same instrument cause two snapshot fetches in one cycle: one distinct
instrument, two fetches. -/
theorem fetch_not_deduplicated_counterexample :
    (check_job 1760000000 (fun _ => none) (fun _ _ => true)
        [("1", ⟨[("QQQ", ⟨10, none, 0, 0, [], 0, 0⟩)], 360, 70, 40, [],
            ⟨1759708800, 0, 0⟩, ⟨1, 7⟩, ⟨false, 0⟩⟩),
         ("2", ⟨[("QQQ", ⟨10, none, 0, 0, [], 0, 0⟩)], 360, 70, 40, [],
            ⟨1759708800, 0, 0⟩, ⟨1, 7⟩, ⟨false, 0⟩⟩)]).fetches
      = ["QQQ", "QQQ"] ∧
    (["QQQ", "QQQ"] : List String).dedup.length = 1 := by
  exact ⟨by decide, by decide⟩

/-- Claim C7 amended: in a cycle where every delivery succeeds, exactly one
snapshot fetch is issued per rule record whose cooldown admits, per
(account, instrument) pair in record order, with no deduplication of
instruments across records. -/
theorem one_fetch_per_admitted_record (now : ℤ) (fetch : String → Option Snapshot)
    (send : String → String → Bool) (data : List (String × UserState))
    (hsend : ∀ c t, send c t = true) :
    (check_job now fetch send data).fetches
      = data.flatMap (fun p =>
          (p.2.alerts.filter fun q =>
            decide (p.2.cooldown_min * 60 ≤ now - q.2.last_sent_ts)).map Prod.fst) := by
  unfold check_job
  exact (runUsers_complete now fetch send hsend data).1

/-- Witness for claim C7 amended at the two-account scenario of the
counterexample, with all deliveries succeeding. -/
theorem one_fetch_per_admitted_record_witness :
    (check_job 1760000000 (fun _ => none) (fun _ _ => true)
        [("1", ⟨[("QQQ", ⟨10, none, 0, 0, [], 0, 0⟩)], 360, 70, 40, [],
            ⟨1759708800, 0, 0⟩, ⟨1, 7⟩, ⟨false, 0⟩⟩),
         ("2", ⟨[("QQQ", ⟨10, none, 0, 0, [], 0, 0⟩)], 360, 70, 40, [],
            ⟨1759708800, 0, 0⟩, ⟨1, 7⟩, ⟨false, 0⟩⟩)]).fetches
      = ([("1", (⟨[("QQQ", ⟨10, none, 0, 0, [], 0, 0⟩)], 360, 70, 40, [],
            ⟨1759708800, 0, 0⟩, ⟨1, 7⟩, ⟨false, 0⟩⟩ : UserState)),
          ("2", (⟨[("QQQ", ⟨10, none, 0, 0, [], 0, 0⟩)], 360, 70, 40, [],
            ⟨1759708800, 0, 0⟩, ⟨1, 7⟩, ⟨false, 0⟩⟩ : UserState))] : List (String × UserState)).flatMap
          (fun p => (p.2.alerts.filter fun q =>
            decide (p.2.cooldown_min * 60 ≤ 1760000000 - q.2.last_sent_ts)).map Prod.fst) :=
  one_fetch_per_admitted_record 1760000000 (fun _ => none) (fun _ _ => true)
    [("1", ⟨[("QQQ", ⟨10, none, 0, 0, [], 0, 0⟩)], 360, 70, 40, [],
        ⟨1759708800, 0, 0⟩, ⟨1, 7⟩, ⟨false, 0⟩⟩),
     ("2", ⟨[("QQQ", ⟨10, none, 0, 0, [], 0, 0⟩)], 360, 70, 40, [],
        ⟨1759708800, 0, 0⟩, ⟨1, 7⟩, ⟨false, 0⟩⟩)]
    (fun _ _ => rfl)

/-- Claim C9 counterexample: with two eligible records, a delivery failure
on the first aborts the cycle: the second record is never evaluated (its
delivery is attempted when sends succeed) and `save_data` never runs, so
none of the cycle state mutations is persisted. -/
theorem delivery_failure_aborts_counterexample :
    check_job 1760000000 (fun _ => some ⟨100, 115, 13⟩) (fun _ _ => false)
        [("1", ⟨[("AAA", ⟨10, none, 0, 0, [], 0, 0⟩), ("BBB", ⟨10, none, 0, 0, [], 0, 0⟩)],
          360, 70, 40, [], ⟨1759708800, 0, 0⟩, ⟨1, 7⟩, ⟨false, 0⟩⟩)]
      = ⟨none, ["AAA"], [("1", "AAA")]⟩ ∧
    (check_job 1760000000 (fun _ => some ⟨100, 115, 13⟩) (fun _ _ => true)
        [("1", ⟨[("AAA", ⟨10, none, 0, 0, [], 0, 0⟩), ("BBB", ⟨10, none, 0, 0, [], 0, 0⟩)],
          360, 70, 40, [], ⟨1759708800, 0, 0⟩, ⟨1, 7⟩, ⟨false, 0⟩⟩)]).sends
      = [("1", "AAA"), ("1", "BBB")] := by
  constructor
  · norm_num [check_job, runUsers, checkUser, runTickers, checkTicker, dcaStep,
      ensure_week_reset, monday_of_week, parse_dca, sortTiers, dca_suggestion]
  · norm_num [check_job, runUsers, checkUser, runTickers, checkTicker, dcaStep,
      ensure_week_reset, monday_of_week, parse_dca, sortTiers, dca_suggestion]

/-- Claim C9 amended: state mutations are staged in memory before delivery
but persisted only by the single `save_data` at the end of the job, so the
cycle mutations reach the store exactly when the job runs to completion:
if every attempted delivery succeeds the final state is saved, and an
uncaught delivery failure leaves the persisted data untouched (every
mutation of the cycle is lost). -/
theorem state_persisted_only_on_full_success (now : ℤ)
    (fetch : String → Option Snapshot) (send : String → String → Bool)
    (data : List (String × UserState)) :
    ((∀ c t, send c t = true) →
      (check_job now fetch send data).data = some (runUsers now fetch send data).users) ∧
    ((runUsers now fetch send data).ok = false →
      (check_job now fetch send data).data = none) := by
  constructor
  · intro hsend
    unfold check_job
    simp only [(runUsers_complete now fetch send hsend data).2, if_true]
  · intro hfail
    unfold check_job
    simp only [hfail, Bool.false_eq_true, if_false]

/-- Witness for claim C9 amended: the two-record scenario persists the
final state when deliveries succeed and persists nothing when the first
delivery fails. -/
theorem state_persisted_only_on_full_success_witness :
    (check_job 1760000000 (fun _ => some ⟨100, 115, 13⟩) (fun _ _ => true)
        [("1", ⟨[("AAA", ⟨10, none, 0, 0, [], 0, 0⟩), ("BBB", ⟨10, none, 0, 0, [], 0, 0⟩)],
          360, 70, 40, [], ⟨1759708800, 0, 0⟩, ⟨1, 7⟩, ⟨false, 0⟩⟩)]).data
      = some (runUsers 1760000000 (fun _ => some ⟨100, 115, 13⟩) (fun _ _ => true)
          [("1", ⟨[("AAA", ⟨10, none, 0, 0, [], 0, 0⟩), ("BBB", ⟨10, none, 0, 0, [], 0, 0⟩)],
            360, 70, 40, [], ⟨1759708800, 0, 0⟩, ⟨1, 7⟩, ⟨false, 0⟩⟩)]).users ∧
    (check_job 1760000000 (fun _ => some ⟨100, 115, 13⟩) (fun _ _ => false)
        [("1", ⟨[("AAA", ⟨10, none, 0, 0, [], 0, 0⟩), ("BBB", ⟨10, none, 0, 0, [], 0, 0⟩)],
          360, 70, 40, [], ⟨1759708800, 0, 0⟩, ⟨1, 7⟩, ⟨false, 0⟩⟩)]).data
      = none := by
  constructor
  · exact (state_persisted_only_on_full_success 1760000000 (fun _ => some ⟨100, 115, 13⟩)
      (fun _ _ => true)
      [("1", ⟨[("AAA", ⟨10, none, 0, 0, [], 0, 0⟩), ("BBB", ⟨10, none, 0, 0, [], 0, 0⟩)],
        360, 70, 40, [], ⟨1759708800, 0, 0⟩, ⟨1, 7⟩, ⟨false, 0⟩⟩)]).1 (fun _ _ => rfl)
  · exact (state_persisted_only_on_full_success 1760000000 (fun _ => some ⟨100, 115, 13⟩)
      (fun _ _ => false)
      [("1", ⟨[("AAA", ⟨10, none, 0, 0, [], 0, 0⟩), ("BBB", ⟨10, none, 0, 0, [], 0, 0⟩)],
        360, 70, 40, [], ⟨1759708800, 0, 0⟩, ⟨1, 7⟩, ⟨false, 0⟩⟩)]).2
      (by norm_num [runUsers, checkUser, runTickers, checkTicker, dcaStep,
        ensure_week_reset, monday_of_week, parse_dca, sortTiers, dca_suggestion])
